import Mathlib

/-!
Shallow embedding of the media-viewer frontend (Svelte/TypeScript sources)
for verification of its specification.

The embedded code comes from:
  * `src/lib/components/MediaGrid.svelte`   — extension tables, `getExtension`,
    `isImageFile` / `isVideoFile` / `isMediaFile`, the `thumbnail-update` event
    handler installed by `setupListener`, and the candidate-building / sorting /
    session-minting parts of `loadMedia`;
  * `src/lib/stores/settings.svelte.ts`     — `SettingsStore.init`'s
    `cacheBaseDir` defaulting and `addRootPath`;
  * `src/lib/components/MediaViewer.svelte` — `handleKeydown` navigation.

JavaScript strings are modelled as `String`, `x | null` as `Option`,
JS array index arithmetic as `Int` where the sign matters, and external
collaborators (Tauri's `convertFileSrc`, `join`, `appLocalDataDir`, the
locale comparison backing `localeCompare`) as parameters or explicitly marked
stand-in definitions whose value no theorem depends on.
-/

namespace MediaViewer

/-- The `ThumbnailState` union type of `MediaGrid.svelte`:
`"loading" | "ready" | "error" | "unsupported"`. -/
inductive ThumbnailState where
  | loading
  | ready
  | error
  | unsupported
deriving DecidableEq, Repr, Inhabited

/-- The `MediaFile` interface of `MediaGrid.svelte`. -/
structure MediaFile where
  name : String
  path : String
  isVideo : Bool
  thumbnailState : ThumbnailState
  thumbnailSrc : Option String
deriving DecidableEq, Repr, Inhabited

/-- The `ThumbnailUpdate` event payload interface of `MediaGrid.svelte`. -/
structure ThumbnailUpdate where
  path : String
  status : ThumbnailState
  thumbnailPath : Option String
  sessionId : Nat
deriving DecidableEq, Repr, Inhabited

/-- `IMAGE_EXTENSIONS` from `MediaGrid.svelte` (lines 21–34), verbatim. -/
def IMAGE_EXTENSIONS : List String :=
  ["jpg", "jpeg", "png", "gif", "webp", "bmp", "svg", "ico", "avif",
   "cr2", "heic", "heif"]

/-- `VIDEO_EXTENSIONS` from `MediaGrid.svelte` (lines 35–44), verbatim. -/
def VIDEO_EXTENSIONS : List String :=
  ["mp4", "webm", "mkv", "avi", "mov", "wmv", "flv", "m4v"]

/-- JavaScript `String.prototype.split(".")` on the character list of a
string: splits at every dot, keeping empty segments, and returns `[[]]`
for the empty string — exactly the JS semantics for a one-character
separator. -/
def splitCharsOnDot : List Char → List (List Char)
  | [] => [[]]
  | c :: rest =>
    let r := splitCharsOnDot rest
    if c = '.' then [] :: r
    else
      match r with
      | [] => [[c]]
      | h :: t => (c :: h) :: t

/-- JavaScript `String.prototype.toLowerCase()` restricted to the ASCII
range, which covers every extension the tables contain. -/
def jsToLower (s : String) : String :=
  String.mk (s.toList.map Char.toLower)

/-- `getExtension` from `MediaGrid.svelte` (lines 72–75):
split the filename on `"."`; if there is more than one part, the extension
is the last part lower-cased, otherwise `""`. -/
def getExtension (filename : String) : String :=
  let parts := (splitCharsOnDot filename.toList).map String.mk
  if parts.length > 1 then jsToLower (parts.getLastD "") else ""

/-- `isImageFile` from `MediaGrid.svelte` (lines 77–79). -/
def isImageFile (filename : String) : Bool :=
  IMAGE_EXTENSIONS.contains (getExtension filename)

/-- `isVideoFile` from `MediaGrid.svelte` (lines 81–83). -/
def isVideoFile (filename : String) : Bool :=
  VIDEO_EXTENSIONS.contains (getExtension filename)

/-- `isMediaFile` from `MediaGrid.svelte` (lines 85–87). -/
def isMediaFile (filename : String) : Bool :=
  isImageFile filename || isVideoFile filename

/-- Stand-in for Tauri's external `convertFileSrc`: turns a filesystem path
into an asset-protocol URL. No theorem depends on its value; it only has to
be a definite function of the path, as the external API is. -/
def convertFileSrc (filePath : String) : String :=
  "asset://localhost/" ++ filePath

/-- The net effect of the two assignments in the `thumbnail-update` handler
of `MediaGrid.svelte` (lines 107–112) on the matched entry:
`thumbnailState` is always set to the event's status, and `thumbnailSrc`
is set to `convertFileSrc(thumbnailPath)` exactly when the status is
`"ready"` and `thumbnailPath` is truthy (non-null and non-empty). -/
def applyUpdate (u : ThumbnailUpdate) (f : MediaFile) : MediaFile :=
  let f1 := { f with thumbnailState := u.status }
  match u.status, u.thumbnailPath with
  | ThumbnailState.ready, some tp =>
    if tp ≠ "" then { f1 with thumbnailSrc := some (convertFileSrc tp) } else f1
  | _, _ => f1

/-- The `thumbnail-update` event handler installed by `setupListener` in
`MediaGrid.svelte` (lines 96–114), as a pure function from the grid state
(`currentSessionId`, `files`) and the event payload to the new `files`
array. The JS strict comparison `update.sessionId !== currentSessionId`
between a number and a `number | null` holds exactly when
`currentSessionId` is not `some update.sessionId`. -/
def handleThumbnailUpdate (currentSessionId : Option Nat) (files : List MediaFile)
    (u : ThumbnailUpdate) : List MediaFile :=
  if some u.sessionId ≠ currentSessionId then files
  else
    match files.findIdx? (fun f => f.path == u.path) with
    | none => files
    | some index => files.set index (applyUpdate u (files.getD index default))

/-- One result of `readDir` plus the subsequent `stat` call in `loadMedia`
(`MediaGrid.svelte` lines 126–146): the entry's name, and `some isDirectory`
when `stat` succeeds or `none` when it throws (the entry is then skipped). -/
structure DirEntry where
  name : String
  statInfo : Option Bool
deriving DecidableEq, Repr, Inhabited

/-- The `MediaFile` record pushed by `loadMedia` (`MediaGrid.svelte`
lines 135–141) for an accepted entry: full path `dirPath/name`, video flag
from the extension table, state `"loading"`, no thumbnail source. -/
def mkMediaFile (dirPath : String) (entryName : String) : MediaFile :=
  { name := entryName
    path := dirPath ++ "/" ++ entryName
    isVideo := isVideoFile entryName
    thumbnailState := ThumbnailState.loading
    thumbnailSrc := none }

/-- The candidate-building loop of `loadMedia` (`MediaGrid.svelte`
lines 129–147): keep an entry when `isMediaFile` accepts its name, `stat`
succeeds and reports it is not a directory; entries whose `stat` throws are
skipped. -/
def candidateFiles (dirPath : String) (entries : List DirEntry) : List MediaFile :=
  entries.filterMap fun e =>
    if isMediaFile e.name then
      match e.statInfo with
      | some isDir => if !isDir then some (mkMediaFile dirPath e.name) else none
      | none => none
    else none

/-- The sort on line 150 of `MediaGrid.svelte`:
`mediaFiles.sort((a, b) => a.name.localeCompare(b.name))`. The locale
comparison is an external JS builtin; it is modelled by the boolean
comparator `le` (`le a b` standing for `a.localeCompare(b) <= 0`). A JS
`Array.prototype.sort` with a consistent comparator is a stable sort whose
output is sorted by the comparator, which `List.mergeSort` models. -/
def sortedMediaFiles (le : String → String → Bool) (mediaFiles : List MediaFile) :
    List MediaFile :=
  mediaFiles.mergeSort (fun a b => le a.name b.name)

/-- The `files` array produced by a completed `loadMedia dirPath` call
whose `readDir`/`stat` results are `entries`: the candidate list sorted by
name (`MediaGrid.svelte` lines 126–150). -/
def loadMediaFiles (le : String → String → Bool) (dirPath : String)
    (entries : List DirEntry) : List MediaFile :=
  sortedMediaFiles le (candidateFiles dirPath entries)

/-- The session-relevant state of `MediaGrid.svelte`: the module-level
`nextSessionId` counter (line 67) and the reactive
`currentSessionId : number | null` (line 66). -/
structure GridSession where
  nextSessionId : Nat
  currentSessionId : Option Nat
deriving DecidableEq, Repr

/-- The state at component creation: `nextSessionId = 0`,
`currentSessionId = null`. -/
def initialGridSession : GridSession :=
  { nextSessionId := 0, currentSessionId := none }

/-- The three events that touch the session state in `MediaGrid.svelte`:
`load` is the start of `loadMedia` (line 124,
`currentSessionId = nextSessionId++`), `finish` is its completion (line 167,
`currentSessionId = null`), and `clearPath` is the `path == null` branch of
the effect (line 180, `currentSessionId = null`). -/
inductive GridStep where
  | load
  | finish
  | clearPath
deriving DecidableEq, Repr

/-- Effect of one `GridStep` on the session state, read off the three
assignments cited in `GridStep`'s documentation. -/
def stepGrid (s : GridSession) : GridStep → GridSession
  | GridStep.load =>
    { nextSessionId := s.nextSessionId + 1, currentSessionId := some s.nextSessionId }
  | GridStep.finish => { s with currentSessionId := none }
  | GridStep.clearPath => { s with currentSessionId := none }

/-- Session state after running a sequence of steps from a given state. -/
def execGridFrom (s : GridSession) (steps : List GridStep) : GridSession :=
  steps.foldl stepGrid s

/-- Session state after running a sequence of steps from component
creation. -/
def execGrid (steps : List GridStep) : GridSession :=
  execGridFrom initialGridSession steps

/-- The session ids minted (returned by `nextSessionId++`) along a step
sequence starting from counter value `n`, in the order they are minted. -/
def mintedIdsFrom : Nat → List GridStep → List Nat
  | _, [] => []
  | n, GridStep.load :: rest => n :: mintedIdsFrom (n + 1) rest
  | n, GridStep.finish :: rest => mintedIdsFrom n rest
  | n, GridStep.clearPath :: rest => mintedIdsFrom n rest

/-- The session ids minted along a step sequence from component creation. -/
def mintedIds (steps : List GridStep) : List Nat :=
  mintedIdsFrom 0 steps

/-- JS truthiness of a `string | null | undefined` value: truthy exactly
when present and non-empty. -/
def strTruthy : Option String → Bool
  | some s => s ≠ ""
  | none => false

/-- The `cacheBaseDir` branch of `SettingsStore.init`
(`settings.svelte.ts` lines 51–63), as a pure function of the external
collaborators (`appLocalDataDir`'s result `appDir` and the path `join`
function) and the persisted value `saved`. Returns the resulting
`cacheBaseDir` together with whether `store.set("cacheBaseDir", …)` was
called to persist it. -/
def initCacheBaseDir (appDir : String) (join : String → String → String)
    (saved : Option String) : String × Bool :=
  if strTruthy saved then (saved.getD "", false)
  else (join appDir "thumbnails", true)

/-- `SettingsStore.addRootPath` (`settings.svelte.ts` lines 83–88), as a
pure function on the `rootPaths` array: append the path unless it is
already included. -/
def addRootPath (rootPaths : List String) (p : String) : List String :=
  if rootPaths.contains p then rootPaths else rootPaths ++ [p]

/-- The observable effect of one `handleKeydown` call in
`MediaViewer.svelte`: it either calls `onClose`, calls `onFileChange` with
some file, or does nothing. -/
inductive ViewerAction where
  | close
  | change (f : MediaFile)
deriving DecidableEq, Repr

/-- `handleKeydown` from `MediaViewer.svelte` (lines 48–65), as a pure
function of the `files` prop, the current `file` prop and the event's key.
JS index arithmetic (`currentIndex < files.length - 1`,
`currentIndex > 0`) is carried out in `Int` exactly as written. -/
def handleKeydown (files : List MediaFile) (file : MediaFile) (key : String) :
    Option ViewerAction :=
  if key == "Escape" then some ViewerAction.close
  else if key == "ArrowRight" || key == "ArrowLeft" then
    match files.findIdx? (fun f => f.path == file.path) with
    | none => none
    | some currentIndex =>
      if key == "ArrowRight" && decide ((currentIndex : Int) < (files.length : Int) - 1) then
        some (ViewerAction.change (files.getD (currentIndex + 1) default))
      else if key == "ArrowLeft" && decide ((0 : Int) < (currentIndex : Int)) then
        some (ViewerAction.change (files.getD (currentIndex - 1) default))
      else none
  else none

/-- The spec's enumerated image-extension table (§6 of the specification),
written from the spec's words for comparison with the source's
`IMAGE_EXTENSIONS`. -/
def specImageExtensions : List String :=
  ["jpg", "jpeg", "png", "gif", "webp", "bmp", "svg", "ico", "avif"]

/-- The spec's enumerated video-extension table (§6 of the specification),
written from the spec's words for comparison with the source's
`VIDEO_EXTENSIONS`. -/
def specVideoExtensions : List String :=
  ["mp4", "webm", "mkv", "avi", "mov", "wmv", "flv", "m4v"]

/-! ### Helper lemmas -/

theorem findIdx?_some_lt {α : Type} (p : α → Bool) :
    ∀ (l : List α) (i : Nat), l.findIdx? p = some i → i < l.length := by
  intro l
  induction l with
  | nil => intro i h; simp [List.findIdx?] at h
  | cons a t ih =>
    intro i h
    rw [List.findIdx?_cons] at h
    by_cases hp : p a
    · simp [hp] at h
      simp [List.length_cons]
      omega
    · simp [hp] at h
      match i, h with
      | (j + 1), h =>
        have hj := ih j (by simpa using h)
        simp [List.length_cons]
        omega

theorem getD_set_self {α : Type} [Inhabited α] (l : List α) (i : Nat) (v d : α)
    (h : i < l.length) : (l.set i v).getD i d = v := by
  simp [List.getD_eq_getElem?_getD, List.getElem?_set_self, h]

theorem applyUpdate_state (u : ThumbnailUpdate) (f : MediaFile) :
    (applyUpdate u f).thumbnailState = u.status := by
  cases hs : u.status <;> cases hp : u.thumbnailPath <;>
    simp [applyUpdate, hs, hp]
  split <;> simp

theorem applyUpdate_src_of_not_ready (u : ThumbnailUpdate) (f : MediaFile)
    (h : u.status ≠ ThumbnailState.ready) :
    (applyUpdate u f).thumbnailSrc = f.thumbnailSrc := by
  cases hs : u.status with
  | ready => exact absurd hs h
  | loading => cases hp : u.thumbnailPath <;> simp [applyUpdate, hs, hp]
  | error => cases hp : u.thumbnailPath <;> simp [applyUpdate, hs, hp]
  | unsupported => cases hp : u.thumbnailPath <;> simp [applyUpdate, hs, hp]

theorem applyUpdate_src_changed (u : ThumbnailUpdate) (f : MediaFile)
    (h : (applyUpdate u f).thumbnailSrc ≠ f.thumbnailSrc) :
    u.status = ThumbnailState.ready ∧ u.thumbnailPath ≠ none := by
  cases hs : u.status <;> cases hp : u.thumbnailPath <;>
    simp [applyUpdate, hs, hp] at h ⊢

theorem applyUpdate_src_of_ready (u : ThumbnailUpdate) (f : MediaFile) (tp : String)
    (hs : u.status = ThumbnailState.ready) (hp : u.thumbnailPath = some tp)
    (hne : tp ≠ "") :
    (applyUpdate u f).thumbnailSrc = some (convertFileSrc tp) := by
  simp [applyUpdate, hs, hp, hne]

/-! ### Claims about the thumbnail-update handler -/

/-- C1: session fencing at the consumer. For every grid state and every
`thumbnail-update` event whose `sessionId` differs from the grid's
`currentSessionId`, the handler installed by `setupListener` returns the
`files` array unchanged — in particular, every entry's `thumbnailState` and
`thumbnailSrc` are untouched. -/
theorem c1_session_fencing (currentSessionId : Option Nat) (files : List MediaFile)
    (u : ThumbnailUpdate) (h : some u.sessionId ≠ currentSessionId) :
    handleThumbnailUpdate currentSessionId files u = files := by
  simp [handleThumbnailUpdate, h]

theorem c1_session_fencing_witness :
    (some (({ path := "/d/a.jpg", status := ThumbnailState.ready,
              thumbnailPath := some "/c/t.webp", sessionId := 1 } :
              ThumbnailUpdate).sessionId) ≠ (some 2 : Option Nat))
    ∧ handleThumbnailUpdate (some 2)
        [{ name := "a.jpg", path := "/d/a.jpg", isVideo := false,
           thumbnailState := ThumbnailState.loading, thumbnailSrc := none }]
        { path := "/d/a.jpg", status := ThumbnailState.ready,
          thumbnailPath := some "/c/t.webp", sessionId := 1 } =
        [{ name := "a.jpg", path := "/d/a.jpg", isVideo := false,
           thumbnailState := ThumbnailState.loading, thumbnailSrc := none }] :=
  ⟨by decide, c1_session_fencing (some 2) _ _ (by decide)⟩

/-- C9: an event for an unknown file is a no-op. If the event passes the
session check but its `path` matches no entry of `files`, the handler
returns `files` unchanged. -/
theorem c9_unknown_path_noop (currentSessionId : Option Nat) (files : List MediaFile)
    (u : ThumbnailUpdate) (h1 : some u.sessionId = currentSessionId)
    (h2 : files.findIdx? (fun f => f.path == u.path) = none) :
    handleThumbnailUpdate currentSessionId files u = files := by
  simp [handleThumbnailUpdate, h1, h2]

theorem c9_unknown_path_noop_witness :
    handleThumbnailUpdate (some 1)
      [{ name := "a.jpg", path := "/d/a.jpg", isVideo := false,
         thumbnailState := ThumbnailState.loading, thumbnailSrc := none }]
      { path := "/d/b.jpg", status := ThumbnailState.ready,
        thumbnailPath := some "/c/t.webp", sessionId := 1 } =
      [{ name := "a.jpg", path := "/d/a.jpg", isVideo := false,
         thumbnailState := ThumbnailState.loading, thumbnailSrc := none }] :=
  c9_unknown_path_noop (some 1) _ _ (by decide) (by decide)

/-- C4: for an event that passes the session and path checks and matches
the entry at index `i`, the handler sets that entry's `thumbnailState` to
the event's status; when the status is not `"ready"` the entry's
`thumbnailSrc` is unchanged; `thumbnailSrc` can change only when the status
is `"ready"` and `thumbnailPath` is non-null; and when the status is
`"ready"` with a truthy `thumbnailPath` the entry's `thumbnailSrc` becomes
the converted thumbnail path. -/
theorem c4_ready_sets_src (currentSessionId : Option Nat) (files : List MediaFile)
    (u : ThumbnailUpdate) (i : Nat) (h1 : some u.sessionId = currentSessionId)
    (h2 : files.findIdx? (fun f => f.path == u.path) = some i) :
    ((handleThumbnailUpdate currentSessionId files u).getD i default).thumbnailState
        = u.status
    ∧ (u.status ≠ ThumbnailState.ready →
        ((handleThumbnailUpdate currentSessionId files u).getD i default).thumbnailSrc
          = (files.getD i default).thumbnailSrc)
    ∧ (((handleThumbnailUpdate currentSessionId files u).getD i default).thumbnailSrc
          ≠ (files.getD i default).thumbnailSrc →
        u.status = ThumbnailState.ready ∧ u.thumbnailPath ≠ none)
    ∧ (∀ tp, u.status = ThumbnailState.ready → u.thumbnailPath = some tp → tp ≠ "" →
        ((handleThumbnailUpdate currentSessionId files u).getD i default).thumbnailSrc
          = some (convertFileSrc tp)) := by
  have hlen : i < files.length := findIdx?_some_lt _ files i h2
  have hres : handleThumbnailUpdate currentSessionId files u
      = files.set i (applyUpdate u (files.getD i default)) := by
    simp [handleThumbnailUpdate, h1, h2]
  have hget : (handleThumbnailUpdate currentSessionId files u).getD i default
      = applyUpdate u (files.getD i default) := by
    rw [hres]; exact getD_set_self files i _ default hlen
  refine ⟨?_, ?_, ?_, ?_⟩
  · rw [hget]; exact applyUpdate_state u _
  · intro h; rw [hget]; exact applyUpdate_src_of_not_ready u _ h
  · intro h; rw [hget] at h; exact applyUpdate_src_changed u _ h
  · intro tp hs hp hne; rw [hget]; exact applyUpdate_src_of_ready u _ tp hs hp hne

theorem c4_ready_sets_src_witness :
    ((handleThumbnailUpdate (some 1)
        [{ name := "a.jpg", path := "/d/a.jpg", isVideo := false,
           thumbnailState := ThumbnailState.loading, thumbnailSrc := none }]
        { path := "/d/a.jpg", status := ThumbnailState.ready,
          thumbnailPath := some "/c/t.webp", sessionId := 1 }).getD 0 default).thumbnailSrc
      = some (convertFileSrc "/c/t.webp") :=
  (c4_ready_sets_src (some 1)
      [{ name := "a.jpg", path := "/d/a.jpg", isVideo := false,
         thumbnailState := ThumbnailState.loading, thumbnailSrc := none }]
      { path := "/d/a.jpg", status := ThumbnailState.ready,
        thumbnailPath := some "/c/t.webp", sessionId := 1 } 0
      (by decide) (by decide)).2.2.2 "/c/t.webp" (by decide) (by decide) (by decide)

/-! ### Claims about loadMedia's candidate list -/

theorem mem_candidateFiles {dirPath : String} {entries : List DirEntry} {f : MediaFile} :
    f ∈ candidateFiles dirPath entries ↔
      ∃ e ∈ entries, e.statInfo = some false ∧ isMediaFile e.name
        ∧ f = mkMediaFile dirPath e.name := by
  rw [candidateFiles, List.mem_filterMap]
  constructor
  · rintro ⟨e, he, hfe⟩
    by_cases hm : isMediaFile e.name
    · rw [if_pos hm] at hfe
      match hst : e.statInfo with
      | some false =>
        rw [hst] at hfe
        simp at hfe
        exact ⟨e, he, hst, hm, hfe.symm⟩
      | some true => rw [hst] at hfe; simp at hfe
      | none => rw [hst] at hfe; simp at hfe
    · rw [if_neg hm] at hfe; simp at hfe
  · rintro ⟨e, he, hst, hm, hf⟩
    refine ⟨e, he, ?_⟩
    rw [if_pos hm, hst]
    simp [hf]

/-- C2 counterexample: the directory entry `img.cr2` (a regular file) is
included by `loadMedia` as a candidate, although its extension `cr2` is in
neither extension table enumerated by the claim. -/
theorem c2_counterexample :
    (candidateFiles "/photos" [{ name := "img.cr2", statInfo := some false }]).map
        (fun f => f.name) = ["img.cr2"]
    ∧ specImageExtensions.contains (getExtension "img.cr2") = false
    ∧ specVideoExtensions.contains (getExtension "img.cr2") = false := by
  decide

/-- C2 (amended): a directory entry becomes a candidate `MediaFile` iff its
`stat` succeeds reporting a non-directory and its extension, lower-cased,
is one of the image extensions `jpg, jpeg, png, gif, webp, bmp, svg, ico,
avif, cr2, heic, heif` or the video extensions `mp4, webm, mkv, avi, mov,
wmv, flv, m4v`; a file whose extension is in neither table never appears. -/
theorem c2_extension_filter (dirPath : String) (entries : List DirEntry) (f : MediaFile) :
    f ∈ candidateFiles dirPath entries ↔
      ∃ e ∈ entries, e.statInfo = some false
        ∧ ((["jpg", "jpeg", "png", "gif", "webp", "bmp", "svg", "ico", "avif",
             "cr2", "heic", "heif"] : List String).contains (getExtension e.name) = true
           ∨ (["mp4", "webm", "mkv", "avi", "mov", "wmv", "flv",
               "m4v"] : List String).contains (getExtension e.name) = true)
        ∧ f = mkMediaFile dirPath e.name := by
  rw [mem_candidateFiles]
  refine exists_congr fun e => and_congr_right fun _ => and_congr_right fun _ =>
    and_congr_left fun _ => ?_
  rw [isMediaFile, isImageFile, isVideoFile, IMAGE_EXTENSIONS, VIDEO_EXTENSIONS,
    Bool.or_eq_true]

theorem c2_extension_filter_witness :
    mkMediaFile "/photos" "a.jpg"
      ∈ candidateFiles "/photos" [{ name := "a.jpg", statInfo := some false }] :=
  (c2_extension_filter "/photos" [{ name := "a.jpg", statInfo := some false }]
      (mkMediaFile "/photos" "a.jpg")).mpr
    ⟨{ name := "a.jpg", statInfo := some false }, by decide, rfl, by decide, rfl⟩

/-- C5: the `files` array produced by `loadMedia` is sorted by name. For
any boolean name comparison `le` that is transitive and total (the contract
of `localeCompare`'s induced order), and any directory listing in any
order, every pair of entries in order (in particular every adjacent pair)
satisfies `le` on their names. -/
theorem c5_sorted_by_name (le : String → String → Bool)
    (htrans : ∀ a b c, le a b → le b c → le a c)
    (htotal : ∀ a b, le a b || le b a)
    (dirPath : String) (entries : List DirEntry) :
    (loadMediaFiles le dirPath entries).Pairwise (fun f g => le f.name g.name) := by
  have h := @List.sorted_mergeSort MediaFile (fun a b => le a.name b.name)
    (fun a b c hab hbc => htrans _ _ _ hab hbc)
    (fun a b => htotal a.name b.name)
    (candidateFiles dirPath entries)
  simpa [loadMediaFiles, sortedMediaFiles] using h

/-- A concrete total transitive name comparison, standing in for the order
induced by `localeCompare` in witnesses. -/
def leString (a b : String) : Bool := decide (a ≤ b)

theorem c5_sorted_by_name_witness :
    (loadMediaFiles leString "/photos"
      [{ name := "b.png", statInfo := some false },
       { name := "a.jpg", statInfo := some false }]).Pairwise
      (fun f g => leString f.name g.name) :=
  c5_sorted_by_name leString
    (fun a b c hab hbc => by
      simp only [leString, decide_eq_true_eq] at *
      exact le_trans hab hbc)
    (fun a b => by
      simp only [leString, Bool.or_eq_true, decide_eq_true_eq]
      exact le_total a b)
    "/photos" _

/-- C7: Loading is the only initial status. Every entry of the `files`
array produced by `loadMedia` is created with `thumbnailState = "loading"`
and `thumbnailSrc = null`. -/
theorem c7_initial_loading (le : String → String → Bool) (dirPath : String)
    (entries : List DirEntry) (f : MediaFile)
    (hf : f ∈ loadMediaFiles le dirPath entries) :
    f.thumbnailState = ThumbnailState.loading ∧ f.thumbnailSrc = none := by
  rw [loadMediaFiles, sortedMediaFiles, List.mem_mergeSort, mem_candidateFiles] at hf
  obtain ⟨e, _, _, _, hf⟩ := hf
  rw [hf]
  exact ⟨rfl, rfl⟩

theorem c7_initial_loading_witness :
    (mkMediaFile "/photos" "a.jpg"
        ∈ loadMediaFiles leString "/photos" [{ name := "a.jpg", statInfo := some false }])
    ∧ (mkMediaFile "/photos" "a.jpg").thumbnailState = ThumbnailState.loading
    ∧ (mkMediaFile "/photos" "a.jpg").thumbnailSrc = none :=
  ⟨by rw [loadMediaFiles, sortedMediaFiles, List.mem_mergeSort]; decide,
   c7_initial_loading leString "/photos" [{ name := "a.jpg", statInfo := some false }]
     (mkMediaFile "/photos" "a.jpg")
     (by rw [loadMediaFiles, sortedMediaFiles, List.mem_mergeSort]; decide)⟩

/-! ### Claims about session identifiers -/

theorem execGridFrom_append (s : GridSession) (pre suf : List GridStep) :
    execGridFrom s (pre ++ suf) = execGridFrom (execGridFrom s pre) suf := by
  simp [execGridFrom, List.foldl_append]

theorem nextSessionId_mono :
    ∀ (steps : List GridStep) (s : GridSession),
      s.nextSessionId ≤ (execGridFrom s steps).nextSessionId := by
  intro steps
  induction steps with
  | nil => intro s; exact Nat.le_refl _
  | cons st rest ih =>
    intro s
    have h := ih (stepGrid s st)
    have hstep : s.nextSessionId ≤ (stepGrid s st).nextSessionId := by
      cases st <;> simp [stepGrid]
    exact le_trans hstep h

/-- Invariant of the grid's session state: whenever a session is current,
it is the most recently minted one. -/
def SessionInv (s : GridSession) : Prop :=
  ∀ i, s.currentSessionId = some i → i + 1 = s.nextSessionId

theorem sessionInv_step (s : GridSession) (st : GridStep) (_h : SessionInv s) :
    SessionInv (stepGrid s st) := by
  intro i hi
  cases st <;> simp [stepGrid] at hi
  · rw [← hi]; simp [stepGrid]

theorem sessionInv_exec :
    ∀ (steps : List GridStep) (s : GridSession), SessionInv s →
      SessionInv (execGridFrom s steps) := by
  intro steps
  induction steps with
  | nil => intro s h; exact h
  | cons st rest ih =>
    intro s h
    exact ih (stepGrid s st) (sessionInv_step s st h)

theorem sessionInv_execGrid (steps : List GridStep) : SessionInv (execGrid steps) :=
  sessionInv_exec steps initialGridSession (by intro i hi; simp [initialGridSession] at hi)

theorem mintedIdsFrom_le :
    ∀ (steps : List GridStep) (n m : Nat), m ∈ mintedIdsFrom n steps → n ≤ m := by
  intro steps
  induction steps with
  | nil => intro n m h; simp [mintedIdsFrom] at h
  | cons st rest ih =>
    intro n m h
    cases st with
    | load =>
      simp [mintedIdsFrom] at h
      rcases h with h | h
      · omega
      · have := ih (n + 1) m h; omega
    | finish => exact ih n m (by simpa [mintedIdsFrom] using h)
    | clearPath => exact ih n m (by simpa [mintedIdsFrom] using h)

theorem mintedIdsFrom_pairwise :
    ∀ (steps : List GridStep) (n : Nat),
      (mintedIdsFrom n steps).Pairwise (· < ·) := by
  intro steps
  induction steps with
  | nil => intro n; simp [mintedIdsFrom]
  | cons st rest ih =>
    intro n
    cases st with
    | load =>
      simp only [mintedIdsFrom]
      refine List.Pairwise.cons ?_ (ih (n + 1))
      intro m hm
      have := mintedIdsFrom_le rest (n + 1) m hm
      omega
    | finish => simpa [mintedIdsFrom] using ih n
    | clearPath => simpa [mintedIdsFrom] using ih n

/-- C3: session identifiers are strictly increasing and never revived.
(1) The ids minted by successive `loadMedia` calls are pairwise strictly
increasing in minting order; (2) a `loadMedia` call's freshly minted id
immediately becomes `currentSessionId`, demoting whatever was current; and
(3) once any strictly newer id has been minted, no continuation of the run
ever makes the old id current again. -/
theorem c3_session_ids (steps pre suf : List GridStep) (i : Nat) :
    (mintedIds steps).Pairwise (· < ·)
    ∧ (execGrid (pre ++ [GridStep.load])).currentSessionId
        = some (execGrid pre).nextSessionId
    ∧ (i + 1 < (execGrid pre).nextSessionId →
        (execGrid (pre ++ suf)).currentSessionId ≠ some i) := by
  refine ⟨mintedIdsFrom_pairwise steps 0, ?_, ?_⟩
  · rw [execGrid, execGridFrom_append]
    simp [execGridFrom, stepGrid, execGrid]
  · intro hnew hcur
    have hinv := sessionInv_execGrid (pre ++ suf) i hcur
    have hmono : (execGrid pre).nextSessionId
        ≤ (execGrid (pre ++ suf)).nextSessionId := by
      simp only [execGrid, execGridFrom_append]
      exact nextSessionId_mono suf (execGridFrom initialGridSession pre)
    omega

theorem c3_session_ids_witness :
    (execGrid ([GridStep.load, GridStep.load] ++ [GridStep.finish])).currentSessionId
      ≠ some 0 :=
  (c3_session_ids [] [GridStep.load, GridStep.load] [GridStep.finish] 0).2.2 (by decide)

/-! ### Claims about the settings store -/

/-- C6: default cache root. If the persisted settings hold no (truthy)
`cacheBaseDir`, `SettingsStore.init` sets it to the per-application local
data directory joined with `"thumbnails"` and persists it; if a non-empty
value is already saved, that value is used unchanged and nothing is
persisted. -/
theorem c6_default_cache_dir (appDir : String) (join : String → String → String)
    (saved : Option String) :
    (saved = none →
      initCacheBaseDir appDir join saved = (join appDir "thumbnails", true))
    ∧ (∀ s, saved = some s → s ≠ "" →
        initCacheBaseDir appDir join saved = (s, false)) := by
  constructor
  · intro h
    simp [initCacheBaseDir, strTruthy, h]
  · intro s h hne
    simp [initCacheBaseDir, strTruthy, h, hne]

theorem c6_default_cache_dir_witness :
    (initCacheBaseDir "/home/u/.local/share/app" (fun a b => a ++ "/" ++ b) none
        = ("/home/u/.local/share/app/thumbnails", true))
    ∧ (initCacheBaseDir "/home/u/.local/share/app" (fun a b => a ++ "/" ++ b)
        (some "/custom/cache") = ("/custom/cache", false)) :=
  ⟨(c6_default_cache_dir "/home/u/.local/share/app" (fun a b => a ++ "/" ++ b)
      none).1 rfl,
   (c6_default_cache_dir "/home/u/.local/share/app" (fun a b => a ++ "/" ++ b)
      (some "/custom/cache")).2 "/custom/cache" rfl (by decide)⟩

/-- C8: `addRootPath` is idempotent and keeps `rootPaths` duplicate-free.
After `addRootPath rootPaths p` the list contains `p`; adding `p` again
changes nothing; a duplicate-free list stays duplicate-free; and when `p`
occurred at most once before, it occurs exactly once after. -/
theorem c8_addRootPath_idempotent (rootPaths : List String) (p : String) :
    p ∈ addRootPath rootPaths p
    ∧ addRootPath (addRootPath rootPaths p) p = addRootPath rootPaths p
    ∧ (rootPaths.Nodup → (addRootPath rootPaths p).Nodup)
    ∧ (rootPaths.count p ≤ 1 → (addRootPath rootPaths p).count p = 1) := by
  by_cases hmem : p ∈ rootPaths
  · have heq : addRootPath rootPaths p = rootPaths := by simp [addRootPath, hmem]
    rw [heq, heq]
    refine ⟨hmem, rfl, fun hn => hn, fun hc => ?_⟩
    have h1 : 1 ≤ rootPaths.count p := List.one_le_count_iff.mpr hmem
    omega
  · have heq : addRootPath rootPaths p = rootPaths ++ [p] := by simp [addRootPath, hmem]
    have hmem2 : p ∈ rootPaths ++ [p] := by simp
    have heq2 : addRootPath (rootPaths ++ [p]) p = rootPaths ++ [p] := by
      simp [addRootPath, hmem2]
    rw [heq, heq2]
    refine ⟨hmem2, rfl, fun hn => ?_, fun _ => ?_⟩
    · rw [List.nodup_append]
      exact ⟨hn, List.nodup_singleton p, by simpa using hmem⟩
    · have h0 : rootPaths.count p = 0 := List.count_eq_zero.mpr hmem
      simp [List.count_append, h0]

theorem c8_addRootPath_idempotent_witness :
    ("/photos" ∈ addRootPath ["/videos"] "/photos")
    ∧ addRootPath (addRootPath ["/videos"] "/photos") "/photos"
        = addRootPath ["/videos"] "/photos"
    ∧ (addRootPath ["/videos"] "/photos").Nodup
    ∧ (addRootPath ["/videos"] "/photos").count "/photos" = 1 :=
  ⟨(c8_addRootPath_idempotent ["/videos"] "/photos").1,
   (c8_addRootPath_idempotent ["/videos"] "/photos").2.1,
   (c8_addRootPath_idempotent ["/videos"] "/photos").2.2.1 (by decide),
   (c8_addRootPath_idempotent ["/videos"] "/photos").2.2.2 (by decide)⟩

/-! ### Claims about the viewer's keyboard navigation -/

/-- C10: viewer navigation is bounded. When the current file is not found
in `files`, neither arrow key produces an `onFileChange` call. When it is
found at index `i`, `ArrowRight` changes to the file at `i + 1` exactly
when `i` is not the last index (and does nothing at the right boundary),
and `ArrowLeft` changes to the file at `i - 1` exactly when `i > 0` (and
does nothing at the left boundary). -/
theorem c10_bounded_navigation (files : List MediaFile) (file : MediaFile) :
    (files.findIdx? (fun f => f.path == file.path) = none →
        handleKeydown files file "ArrowRight" = none
        ∧ handleKeydown files file "ArrowLeft" = none)
    ∧ (∀ i, files.findIdx? (fun f => f.path == file.path) = some i →
        (i + 1 < files.length →
            handleKeydown files file "ArrowRight"
              = some (ViewerAction.change (files.getD (i + 1) default)))
        ∧ (i + 1 = files.length → handleKeydown files file "ArrowRight" = none)
        ∧ (0 < i →
            handleKeydown files file "ArrowLeft"
              = some (ViewerAction.change (files.getD (i - 1) default)))
        ∧ (i = 0 → handleKeydown files file "ArrowLeft" = none)) := by
  constructor
  · intro hnone
    constructor <;> simp [handleKeydown, hnone]
  · intro i hi
    refine ⟨?_, ?_, ?_, ?_⟩
    · intro hlt
      have hc : ((i : Int) < (files.length : Int) - 1) := by omega
      simp [handleKeydown, hi, hc]
    · intro hlast
      have hc : ¬ ((i : Int) < (files.length : Int) - 1) := by omega
      simp [handleKeydown, hi, hc]
    · intro hpos
      have hc : ((0 : Int) < (i : Int)) := by exact_mod_cast hpos
      simp [handleKeydown, hi, hc]
    · intro hz
      subst hz
      simp [handleKeydown, hi]

theorem c10_bounded_navigation_witness :
    handleKeydown
        [{ name := "a.jpg", path := "/d/a.jpg", isVideo := false,
           thumbnailState := ThumbnailState.loading, thumbnailSrc := none },
         { name := "b.jpg", path := "/d/b.jpg", isVideo := false,
           thumbnailState := ThumbnailState.loading, thumbnailSrc := none }]
        { name := "b.jpg", path := "/d/b.jpg", isVideo := false,
          thumbnailState := ThumbnailState.loading, thumbnailSrc := none }
        "ArrowRight" = none :=
  ((c10_bounded_navigation
      [{ name := "a.jpg", path := "/d/a.jpg", isVideo := false,
         thumbnailState := ThumbnailState.loading, thumbnailSrc := none },
       { name := "b.jpg", path := "/d/b.jpg", isVideo := false,
         thumbnailState := ThumbnailState.loading, thumbnailSrc := none }]
      { name := "b.jpg", path := "/d/b.jpg", isVideo := false,
        thumbnailState := ThumbnailState.loading, thumbnailSrc := none }).2 1
      (by decide)).2.1 (by decide)

end MediaViewer
